import Mathlib

/-!
# Verification of the chat-app live session & broadcast subsystem

Shallow embedding of the socket.io server of the `chat-app` repository.
The repository holds several near-duplicate snapshots of the same server:

* `src/server.js` (first snapshot): the mongoose-backed server whose socket
  handlers are `connection` (history push), `user connected` (announce),
  `chat message`, `typing start` / `typing stop`, `clear chat`, `send alert`
  and `disconnect`.
* `src/unnamed/part_002` (first snapshot): the same server plus a
  `message seen` handler and a `seen` flag in the message schema.
* `src/unnamed/part_002` (third snapshot, pg) and `src/unnamed/part_003`
  (mysql): relational variants whose `chat message` handler inserts the
  draft into a SQL table and then rebroadcasts the *client draft* (`msg`),
  not the persisted row.

Timestamps (`new Date()` / SQL `CURRENT_TIMESTAMP`) are modelled by a `now`
parameter supplied by the environment at each step, and message ids
(`_id` / auto-increment) by a `nextId` counter in the server state.
Store availability (mongoose / SQL call succeeding or throwing) is modelled
by a boolean `dbOk` parameter on each step.
-/

/-- The `replyTo` sub-document of the message schema:
`replyTo: { user: String, text: String }` (src/server.js line 81). -/
structure ReplySnapshot where
  user : String
  text : String
deriving DecidableEq, Repr

/-- A client-submitted, not-yet-persisted `chat message` payload (`msg` in
the handlers).  The client may send arbitrary JSON, so every field is
optional; `time` and `id` model client-supplied timestamp/id fields, which
the mongoose handler ignores (it sets `time: new Date()` and lets the store
assign `_id`) but which the relational snapshots rebroadcast verbatim. -/
structure Draft where
  user : Option String
  avatar_url : Option String
  text : Option String
  replyTo : Option ReplySnapshot
  time : Option Nat
  id : Option Nat
deriving DecidableEq, Repr

/-- A persisted message document, following the mongoose `messageSchema` of
src/server.js lines 76-83 together with the `seen` flag of
src/unnamed/part_002 line 82 (`seen: { type: Boolean, default: false }`).
`id` is the store-assigned `_id`; `time` the server-assigned timestamp. -/
structure StoredMessage where
  id : Nat
  user : Option String
  avatar_url : String
  text : Option String
  audio_url : Option String
  image_url : Option String
  seen : Bool
  replyTo : Option ReplySnapshot
  time : Nat
deriving DecidableEq, Repr

/-- The presence metadata kept per socket in `activeUsers`
(`{ username: userData.username, avatar_url: userData.avatar_url }`,
src/server.js lines 224-227). -/
structure UserInfo where
  username : String
  avatar_url : String
deriving DecidableEq, Repr

/-- Payload of `send alert` (`data` in the handler). -/
structure AlertData where
  user : Option String
  text : Option String
deriving DecidableEq, Repr

/-- The `activeUsers` object: a JS object keyed by socket id.  JS objects
preserve key insertion order, assignment to an existing key keeps its
position, and `delete` removes the key; the association list mirrors
exactly that. -/
abbrev Directory := List (String × UserInfo)

/-- Lookup `activeUsers[socket.id]`. -/
def dLookup (cid : String) : Directory → Option UserInfo
  | [] => none
  | (c, u) :: rest => if c = cid then some u else dLookup cid rest

/-- Assignment `activeUsers[socket.id] = {...}`: overwrite in place if
present, append otherwise (JS object key semantics). -/
def dInsert (cid : String) (u : UserInfo) : Directory → Directory
  | [] => [(cid, u)]
  | (c, v) :: rest =>
      if c = cid then (c, u) :: rest else (c, v) :: dInsert cid u rest

/-- Deletion `delete activeUsers[socket.id]`. -/
def dRemove (cid : String) (d : Directory) : Directory :=
  d.filter (fun p => !(p.1 = cid : Bool))

/-- The list `Object.values(activeUsers)` (src/server.js line 216). -/
def usersValues (d : Directory) : List UserInfo :=
  d.map Prod.snd

/-- Server state: the message store (in insertion order), the id counter
modelling store-side id assignment, and the `activeUsers` directory. -/
structure ServerState where
  store : List StoredMessage
  nextId : Nat
  activeUsers : Directory
deriving DecidableEq, Repr

/-- State at process start: empty store view, empty `activeUsers`. -/
def initState : ServerState :=
  { store := [], nextId := 0, activeUsers := [] }

/-- Inbound events of the realtime surface, each tagged with the
originating connection id (`socket.id`). -/
inductive InEvent where
  | connect (cid : String)
  | announce (cid : String) (u : UserInfo)
  | chatMessage (cid : String) (d : Draft)
  | messageSeen (cid : String) (mid : Nat)
  | typingStart (cid : String)
  | typingStop (cid : String)
  | clearChat (cid : String)
  | sendAlert (cid : String) (a : AlertData)
  | disconnect (cid : String)
deriving DecidableEq, Repr

/-- To whom an emission is delivered: `io.emit` reaches every connected
session including the sender; `socket.emit` the one session only;
`socket.broadcast.emit` every session except the sender. -/
inductive Recipient where
  | toAll
  | toOne (cid : String)
  | toAllExcept (cid : String)
deriving DecidableEq, Repr

/-- One item of the mapped history payload of src/unnamed/part_003 lines
150-158: `{ user: m.user, text: m.text, replyTo: m.reply_user ? { user:
m.reply_user, text: m.reply_text } : null, time: m.time }`. -/
structure SqlHistItem where
  user : Option String
  text : Option String
  replyToUser : Option String
  replyToText : Option String
  time : Nat
deriving DecidableEq, Repr

/-- Outbound events.  `chatMessage` carries a persisted record (mongoose
servers emit `newMsg`); `chatMessageRaw` carries the raw client draft
(the pg/mysql snapshots emit `msg`); `sqlChatHistory` the mapped
history payload of the relational snapshots. -/
inductive OutEvent where
  | chatHistory (msgs : List StoredMessage)
  | chatMessage (m : StoredMessage)
  | chatMessageRaw (d : Draft)
  | sqlChatHistory (items : List SqlHistItem)
  | updateUserList (users : List UserInfo)
  | userTypingStart (u : UserInfo)
  | userTypingStop (u : UserInfo)
  | messageStatusUpdated (mid : Nat)
  | chatCleared
  | alert (sender : Option String) (text : String)
deriving DecidableEq, Repr

abbrev Emission := Recipient × OutEvent

/-- Stable insertion into a time-ascending list: the new element goes after
every element with a strictly smaller time and before the first element
with a greater-or-equal time that was inserted later. -/
def insertByTime (m : StoredMessage) : List StoredMessage → List StoredMessage
  | [] => [m]
  | x :: xs => if x.time < m.time then x :: insertByTime m xs else m :: x :: xs

/-- Stable sort by `time` ascending (ties keep insertion order), modelling
`Message.find().sort({ time: 1 })`. -/
def sortByTime : List StoredMessage → List StoredMessage
  | [] => []
  | x :: xs => insertByTime x (sortByTime xs)

/-- The query `Message.find().sort({ time: 1 }).limit(n)`: sort the whole store by
time ascending and keep the first `n` (src/server.js line 219 with
`n = 50`; part_002 uses 100, other snapshots 20). -/
def findRecent (n : Nat) (store : List StoredMessage) : List StoredMessage :=
  (sortByTime store).take n

/-- Modelled from the spec: §4.1/§4.4 `findRecent` — "the most recent N
messages ... ordered oldest-first within the window".  The N entries with
the greatest timestamps, presented oldest-first. -/
def specRecentWindow (n : Nat) (store : List StoredMessage) : List StoredMessage :=
  let sorted := sortByTime store
  sorted.drop (sorted.length - n)

/-- The lookup `Message.findById(mid)`: the first stored document with that id. -/
def findById (mid : Nat) : List StoredMessage → Option StoredMessage
  | [] => none
  | m :: rest => if m.id = mid then some m else findById mid rest

/-- The update `Message.updateOne({ _id: mid }, { $set: { seen: true } })`. -/
def markSeen (mid : Nat) (store : List StoredMessage) : List StoredMessage :=
  store.map (fun m => if m.id = mid then { m with seen := true } else m)

/-- The document built by the `chat message` handler of src/server.js
lines 234-240: `new Message({ user: msg.user, avatar_url: msg.avatar_url
|| "/default-avatar.png", text: msg.text, replyTo: msg.replyTo || null,
time: new Date() })`, with the store assigning `_id`.  Depends only on the
draft, the id counter and the server clock — never on the store contents. -/
def mkStored (id now : Nat) (d : Draft) : StoredMessage :=
  { id := id
    user := d.user
    avatar_url := d.avatar_url.getD "/default-avatar.png"
    text := d.text
    audio_url := none
    image_url := none
    seen := false
    replyTo := d.replyTo
    time := now }

/-- One inbound event processed to completion by the mongoose server
(src/server.js socket handlers; `messageSeen` from src/unnamed/part_002
lines 216-226, the snapshot that implements it).  `dbOk` tells whether the
store call made by the handler succeeds; `now` is the server clock read by
`new Date()`.  Returns the post-state and the emissions in order. -/
def step (dbOk : Bool) (now : Nat) (st : ServerState) :
    InEvent → ServerState × List Emission
  | .connect cid =>
      -- Message.find().sort({time:1}).limit(50).then(msgs =>
      --   socket.emit("chat history", msgs))  — no rejection handler:
      -- on store failure nothing is emitted and nothing is logged.
      if dbOk then
        (st, [(.toOne cid, .chatHistory (findRecent 50 st.store))])
      else
        (st, [])
  | .announce cid u =>
      let d := dInsert cid u st.activeUsers
      ({ st with activeUsers := d },
       [(.toAll, .updateUserList (usersValues d))])
  | .chatMessage _cid d =>
      if dbOk then
        let newMsg := mkStored st.nextId now d
        ({ st with store := st.store ++ [newMsg], nextId := st.nextId + 1 },
         [(.toAll, .chatMessage newMsg)])
      else
        -- catch (err) { console.error("❌ Error saving message", err); }
        (st, [])
  | .messageSeen _cid mid =>
      if dbOk then
        match findById mid st.store with
        | some m =>
            if m.seen then (st, [])
            else
              ({ st with store := markSeen mid st.store },
               [(.toAll, .messageStatusUpdated mid)])
        | none => (st, [])
      else
        (st, [])
  | .typingStart cid =>
      match dLookup cid st.activeUsers with
      | some u => (st, [(.toAllExcept cid, .userTypingStart u)])
      | none => (st, [])
  | .typingStop cid =>
      match dLookup cid st.activeUsers with
      | some u => (st, [(.toAllExcept cid, .userTypingStop u)])
      | none => (st, [])
  | .clearChat _cid =>
      if dbOk then
        ({ st with store := [] }, [(.toAll, .chatCleared)])
      else
        (st, [])
  | .sendAlert _cid a =>
      (st, [(.toAll, .alert a.user (a.text.getD "⚠️ ALERT!"))])
  | .disconnect cid =>
      match dLookup cid st.activeUsers with
      | some u =>
          let d := dRemove cid st.activeUsers
          ({ st with activeUsers := d },
           [(.toAllExcept cid, .userTypingStop u),
            (.toAll, .updateUserList (usersValues d))])
      | none => (st, [])

/-- One element of an execution trace: the environment for the step
(store availability, clock reading) and the inbound event. -/
structure TEvent where
  dbOk : Bool
  now : Nat
  ev : InEvent
deriving DecidableEq, Repr

/-- Run a trace, accumulating all emissions in order. -/
def run (st : ServerState) : List TEvent → ServerState × List Emission
  | [] => (st, [])
  | t :: ts =>
      let p := step t.dbOk t.now st t.ev
      let q := run p.1 ts
      (q.1, p.2 ++ q.2)

/-! ## The relational snapshots (src/unnamed/part_002 third snapshot, pg;
src/unnamed/part_003, mysql)

Their `messages` table is
`(id AUTO_INCREMENT/SERIAL, user/username, text, reply_user, reply_text,
time DEFAULT CURRENT_TIMESTAMP)`; `id` and `time` are assigned by the
database at insert time. -/

/-- A row of the relational `messages` table. -/
structure SqlRow where
  id : Nat
  user : Option String
  text : Option String
  reply_user : Option String
  reply_text : Option String
  time : Nat
deriving DecidableEq, Repr

/-- State of the relational store. -/
structure SqlState where
  rows : List SqlRow
  nextId : Nat
deriving DecidableEq, Repr

def sqlInit : SqlState := { rows := [], nextId := 0 }

/-- The row inserted by
`INSERT INTO messages (user, text, reply_user, reply_text) VALUES
(msg.user, msg.text, msg.replyTo?.user || null, msg.replyTo?.text || null)`
(src/unnamed/part_003 lines 167-170), with database-assigned id and time. -/
def sqlInsertRow (id now : Nat) (d : Draft) : SqlRow :=
  { id := id
    user := d.user
    text := d.text
    reply_user := d.replyTo.map ReplySnapshot.user
    reply_text := d.replyTo.map ReplySnapshot.text
    time := now }

/-- The `chat message` handler of src/unnamed/part_003 lines 165-175 (the
pg snapshot in part_002 lines 474-484 is identical in the modelled
respects): insert the draft fields, then `io.emit("chat message", msg)`
— the broadcast payload is the raw client draft, not the persisted row. -/
def sqlChatMessage (dbOk : Bool) (now : Nat) (st : SqlState) (d : Draft) :
    SqlState × List Emission :=
  if dbOk then
    ({ rows := st.rows ++ [sqlInsertRow st.nextId now d],
       nextId := st.nextId + 1 },
     [(.toAll, .chatMessageRaw d)])
  else
    -- catch (err) { console.error("❌ Error saving message:", err); }
    (st, [])

/-- Stable insertion for rows, time ascending. -/
def sqlInsertByTime (m : SqlRow) : List SqlRow → List SqlRow
  | [] => [m]
  | x :: xs => if x.time < m.time then x :: sqlInsertByTime m xs else m :: x :: xs

/-- The clause `ORDER BY time ASC` modelled as a stable ascending sort. -/
def sqlSortByTime : List SqlRow → List SqlRow
  | [] => []
  | x :: xs => sqlInsertByTime x (sqlSortByTime xs)

/-- The row-to-payload mapping, with JS truthiness of `m.reply_user`
(the empty string is falsy, so it yields `replyTo: null`). -/
def sqlHistItem (m : SqlRow) : SqlHistItem :=
  match m.reply_user with
  | some u =>
      if u = "" then
        { user := m.user, text := m.text, replyToUser := none,
          replyToText := none, time := m.time }
      else
        { user := m.user, text := m.text, replyToUser := some u,
          replyToText := m.reply_text, time := m.time }
  | none =>
      { user := m.user, text := m.text, replyToUser := none,
        replyToText := none, time := m.time }

/-- The history fetch of src/unnamed/part_003 lines 144-162:
`SELECT * FROM messages ORDER BY time ASC LIMIT 20`, mapped and emitted to
the connecting socket only; the catch branch logs
`"❌ Error fetching history:"` and emits nothing. -/
def sqlConnect (dbOk : Bool) (cid : String) (st : SqlState) : List Emission :=
  if dbOk then
    [(.toOne cid,
      .sqlChatHistory (((sqlSortByTime st.rows).take 20).map sqlHistItem))]
  else
    []

/-! ## Concrete inputs used by witnesses and counterexamples -/

/-- A message with id and time `i`, for building concrete stores. -/
def msgAt (i : Nat) : StoredMessage :=
  { id := i, user := none, avatar_url := "", text := none,
    audio_url := none, image_url := none,
    seen := false, replyTo := none, time := i }

/-- A store holding 51 messages with timestamps 0..50: one more than the
history window of 50 of src/server.js. -/
def bigStore : List StoredMessage := (List.range 51).map msgAt

def aliceInfo : UserInfo := { username := "alice", avatar_url := "/a.png" }

def bobInfo : UserInfo := { username := "bob", avatar_url := "/b.png" }

/-- A draft that also smuggles client-supplied `time` and `id` fields. -/
def wDraft : Draft :=
  { user := some "alice", avatar_url := none, text := some "yo",
    replyTo := none, time := some 999, id := some 42 }

/-- The original message draft of the round-trip scenario. -/
def exDraftA : Draft :=
  { user := some "A", avatar_url := some "/a.png", text := some "hi",
    replyTo := none, time := none, id := none }

/-- The reply draft carrying the snapshot `{author:"A", text:"hi"}`. -/
def exDraftB : Draft :=
  { user := some "B", avatar_url := some "/b.png", text := some "sup",
    replyTo := some { user := "A", text := "hi" }, time := none, id := none }

/-- A server state with one persisted (unseen) message and one announced
connection. -/
def wState : ServerState :=
  { store := [msgAt 0], nextId := 1, activeUsers := [("c1", aliceInfo)] }

/-- The round-trip trace: A sends "hi", B replies carrying the snapshot
`{user:"A", text:"hi"}`, then the chat is cleared. -/
def exTrace : List TEvent :=
  [{ dbOk := true, now := 1, ev := .chatMessage "cA" exDraftA },
   { dbOk := true, now := 2, ev := .chatMessage "cB" exDraftB },
   { dbOk := true, now := 3, ev := .clearChat "cB" }]

/-! ## Helper lemmas about the directory and the store -/

theorem dLookup_dInsert_ne (cid c : String) (u : UserInfo) (d : Directory)
    (h : ¬ c = cid) : dLookup cid (dInsert c u d) = dLookup cid d := by
  induction d with
  | nil => simp [dInsert, dLookup, h]
  | cons p rest ih =>
      obtain ⟨k, v⟩ := p
      by_cases hk : k = c
      · subst hk
        simp [dInsert, dLookup, h]
      · by_cases hc : k = cid
        · subst hc
          simp [dInsert, dLookup, hk]
        · simp [dInsert, dLookup, hk, hc, ih]

theorem dLookup_dRemove_of_none (cid c : String) (d : Directory)
    (h : dLookup cid d = none) : dLookup cid (dRemove c d) = none := by
  induction d with
  | nil => rfl
  | cons p rest ih =>
      obtain ⟨k, v⟩ := p
      by_cases hc : k = cid
      · simp [dLookup, hc] at h
      · simp [dLookup, hc] at h
        by_cases hk : k = c <;> simp [dRemove, List.filter, hk, dLookup, hc] <;>
          simpa [dRemove] using ih h

theorem findById_markSeen (mid : Nat) (s : List StoredMessage) :
    findById mid (markSeen mid s)
      = (findById mid s).map (fun m => { m with seen := true }) := by
  induction s with
  | nil => rfl
  | cons x xs ih =>
      by_cases h : x.id = mid
      · simp [findById, markSeen, h]
      · simp [findById, markSeen, h]
        simpa [markSeen] using ih

/-- The `activeUsers` directory never acquires an entry for a connection
that is not announced by the processed event. -/
theorem step_absent (dbOk : Bool) (now : Nat) (st : ServerState) (e : InEvent)
    (cid : String) (h : dLookup cid st.activeUsers = none)
    (hne : ∀ u, e ≠ InEvent.announce cid u) :
    dLookup cid (step dbOk now st e).1.activeUsers = none := by
  cases e with
  | connect c => by_cases hdb : dbOk <;> simp [step, hdb, h]
  | announce c u =>
      have hc : ¬ c = cid := fun hcc => hne u (by rw [hcc])
      simpa [step] using
        (dLookup_dInsert_ne cid c u st.activeUsers hc).trans h
  | chatMessage c d => by_cases hdb : dbOk <;> simp [step, hdb, h]
  | messageSeen c mid =>
      by_cases hdb : dbOk
      · cases hf : findById mid st.store with
        | none => simp [step, hdb, hf, h]
        | some m => by_cases hs : m.seen <;> simp [step, hdb, hf, hs, h]
      · simp [step, hdb, h]
  | typingStart c =>
      cases hl : dLookup c st.activeUsers <;> simp [step, hl, h]
  | typingStop c =>
      cases hl : dLookup c st.activeUsers <;> simp [step, hl, h]
  | clearChat c => by_cases hdb : dbOk <;> simp [step, hdb, h]
  | sendAlert c a => simp [step, h]
  | disconnect c =>
      cases hl : dLookup c st.activeUsers with
      | none => simp [step, hl, h]
      | some u =>
          simpa [step, hl] using dLookup_dRemove_of_none cid c st.activeUsers h

/-- Every `update user list` emission of a step carries exactly the values
of the directory after the step. -/
theorem step_roster (dbOk : Bool) (now : Nat) (st : ServerState) (e : InEvent)
    (l : List UserInfo)
    (h : (Recipient.toAll, OutEvent.updateUserList l) ∈ (step dbOk now st e).2) :
    l = usersValues (step dbOk now st e).1.activeUsers := by
  cases e with
  | connect c => by_cases hdb : dbOk <;> simp [step, hdb] at h
  | announce c u => simp [step] at h ⊢; simp [h]
  | chatMessage c d => by_cases hdb : dbOk <;> simp [step, hdb] at h
  | messageSeen c mid =>
      by_cases hdb : dbOk
      · cases hf : findById mid st.store with
        | none => simp [step, hdb, hf] at h
        | some m => by_cases hs : m.seen <;> simp [step, hdb, hf, hs] at h
      · simp [step, hdb] at h
  | typingStart c =>
      cases hl : dLookup c st.activeUsers <;> simp [step, hl] at h
  | typingStop c =>
      cases hl : dLookup c st.activeUsers <;> simp [step, hl] at h
  | clearChat c => by_cases hdb : dbOk <;> simp [step, hdb] at h
  | sendAlert c a => simp [step] at h
  | disconnect c =>
      cases hl : dLookup c st.activeUsers with
      | none => simp [step, hl] at h
      | some u => simp [step, hl] at h ⊢; simp [h]

/-- Through a whole trace that never announces `cid`, every roster
broadcast is the value list of a directory holding no entry for `cid`. -/
theorem run_roster_avoids (cid : String) (es : List TEvent) :
    ∀ st : ServerState,
      dLookup cid st.activeUsers = none →
      (∀ t ∈ es, ∀ u, t.ev ≠ InEvent.announce cid u) →
      ∀ l, (Recipient.toAll, OutEvent.updateUserList l) ∈ (run st es).2 →
        ∃ d, l = usersValues d ∧ dLookup cid d = none := by
  induction es with
  | nil => intro st h _ l hm; simp [run] at hm
  | cons t ts ih =>
      intro st h hann l hm
      have hstep := step_absent t.dbOk t.now st t.ev cid h
        (hann t (by simp))
      simp only [run, List.mem_append] at hm
      rcases hm with hm1 | hm2
      · exact ⟨(step t.dbOk t.now st t.ev).1.activeUsers,
          step_roster t.dbOk t.now st t.ev l hm1, hstep⟩
      · exact ih (step t.dbOk t.now st t.ev).1 hstep
          (fun t' ht' => hann t' (by simp [ht'])) l hm2

/-! ## Claim theorems -/

/-- C1 (amended): in the mongoose router (src/server.js lines 232-246),
`onMessage` persists first — appending a record whose id is the fresh
counter value and whose `createdAt` is the server clock, both independent
of any client-supplied `id`/`time` field — and only then broadcasts
exactly that persisted record to every connected session including the
sender (`io.emit`).  In the pg/mysql snapshots, persistence (with
store-assigned id and timestamp) still precedes the fan-out to all
connections including the sender, but the broadcast payload is the raw
client draft, not the persisted record. -/
theorem c1_broadcast_persisted_record_amended (now : Nat) (st : ServerState)
    (cid : String) (d : Draft) (sq : SqlState)
    (hfresh : ∀ m ∈ st.store, m.id < st.nextId) :
    step true now st (.chatMessage cid d)
      = ({ st with store := st.store ++ [mkStored st.nextId now d],
                   nextId := st.nextId + 1 },
         [(Recipient.toAll, OutEvent.chatMessage (mkStored st.nextId now d))])
    ∧ (∀ m ∈ st.store, m.id ≠ (mkStored st.nextId now d).id)
    ∧ (mkStored st.nextId now d).time = now
    ∧ (mkStored st.nextId now d).id = st.nextId
    ∧ sqlChatMessage true now sq d
        = ({ rows := sq.rows ++ [sqlInsertRow sq.nextId now d],
             nextId := sq.nextId + 1 },
           [(Recipient.toAll, OutEvent.chatMessageRaw d)]) := by
  refine ⟨rfl, ?_, rfl, rfl, rfl⟩
  intro m hm
  exact Nat.ne_of_lt (hfresh m hm)

/-- Witness for C1 at a concrete state and draft. -/
theorem c1_broadcast_persisted_record_witness :
    (∀ m ∈ wState.store, m.id < wState.nextId)
    ∧ step true 7 wState (.chatMessage "c1" wDraft)
        = ({ wState with
               store := wState.store ++ [mkStored wState.nextId 7 wDraft],
               nextId := wState.nextId + 1 },
           [(Recipient.toAll,
             OutEvent.chatMessage (mkStored wState.nextId 7 wDraft))]) :=
  ⟨by decide,
   (c1_broadcast_persisted_record_amended 7 wState "c1" wDraft sqlInit
      (by decide)).1⟩

/-- C1 counterexample: the `chat message` handler of the mysql snapshot
(src/unnamed/part_003 lines 165-175; the pg snapshot in part_002 lines
474-484 behaves alike) persists the draft and then broadcasts the raw
client draft `msg` — here carrying the client-supplied time 999 and id 42
instead of the server-assigned time 7 and id 0 of the persisted row — so
what is broadcast is not the persisted record. -/
theorem c1_sql_draft_rebroadcast_counterexample :
    (sqlChatMessage true 7 sqlInit wDraft).2
        = [(Recipient.toAll, OutEvent.chatMessageRaw wDraft)]
    ∧ (sqlChatMessage true 7 sqlInit wDraft).1.rows
        = [{ id := 0, user := some "alice", text := some "yo",
             reply_user := none, reply_text := none, time := 7 }]
    ∧ ((sqlChatMessage true 7 sqlInit wDraft).2.all
         (fun e => match e.2 with
                   | OutEvent.chatMessage _ => false
                   | _ => true)) = true
    ∧ wDraft.time = some 999 ∧ wDraft.id = some 42 :=
  ⟨rfl, rfl, rfl, rfl, rfl⟩

/-- C2 (code bug): the history fetch
`Message.find().sort({ time: 1 }).limit(50)` (src/server.js line 219)
keeps the first 50 of the time-ascending order, i.e. the oldest 50
messages, while the claim — and the comments in the code itself, such as
"Send last 20 messages" — require the most recent window.  On a store of
51 messages timed 0..50, the connection push delivers the messages timed
0..49 and omits the newest (time 50); the most recent 50 presented
oldest-first would be those timed 1..50. -/
theorem c2_history_window_oldest_not_recent :
    findRecent 50 bigStore = (List.range 50).map msgAt
    ∧ specRecentWindow 50 bigStore = (List.range 50).map (fun i => msgAt (i + 1))
    ∧ findRecent 50 bigStore ≠ specRecentWindow 50 bigStore
    ∧ (step true 0 { store := bigStore, nextId := 51, activeUsers := [] }
         (.connect "c9")).2
        = [(Recipient.toOne "c9", OutEvent.chatHistory (findRecent 50 bigStore))] :=
  ⟨by decide, by decide, by decide, rfl⟩

/-- C3 (amended): when persistence fails, the catch branch of the
`chat message` handler (src/server.js lines 243-245 and the relational
snapshots alike) only logs server-side: the message is broadcast to no
connection and the store is unchanged, but no error event of any kind is
sent back to the originating connection. -/
theorem c3_persistence_failure_amended (now : Nat) (st : ServerState)
    (cid : String) (d : Draft) (sq : SqlState) :
    step false now st (.chatMessage cid d) = (st, [])
    ∧ sqlChatMessage false now sq d = (sq, []) :=
  ⟨rfl, rfl⟩

/-- C3 counterexample: with a failing store the handler emits nothing at
all — in particular no emission addressed to the originating connection
`"c1"` — contrary to the claim that an error is reported back to the
sender. -/
theorem c3_no_error_report_counterexample :
    step false 5 wState (.chatMessage "c1" wDraft) = (wState, [])
    ∧ ((step false 5 wState (.chatMessage "c1" wDraft)).2.all
         (fun e => decide (e.1 ≠ Recipient.toOne "c1"))) = true :=
  ⟨rfl, rfl⟩

/-- C4: `onSeen` (src/unnamed/part_002 lines 216-226) is idempotent and
silently tolerant of unknown ids: the first call naming an unseen stored
message flips its `seen` flag and broadcasts exactly one
`message status updated` event for that id to all connections; a repeat
call with the same id changes nothing and broadcasts nothing, and so does
any call whose id is not in the store. -/
theorem c4_seen_idempotent (now now2 : Nat) (st : ServerState)
    (cid cid2 : String) (mid : Nat) (m : StoredMessage)
    (hfind : findById mid st.store = some m) (hseen : m.seen = false) :
    step true now st (.messageSeen cid mid)
      = ({ st with store := markSeen mid st.store },
         [(Recipient.toAll, OutEvent.messageStatusUpdated mid)])
    ∧ step true now2 { st with store := markSeen mid st.store }
        (.messageSeen cid2 mid)
      = ({ st with store := markSeen mid st.store }, [])
    ∧ (∀ (st2 : ServerState) (mid2 : Nat), findById mid2 st2.store = none →
         step true now st2 (.messageSeen cid mid2) = (st2, [])) := by
  refine ⟨?_, ?_, ?_⟩
  · simp [step, hfind, hseen]
  · have h2 : findById mid (markSeen mid st.store)
        = some { m with seen := true } := by
      rw [findById_markSeen, hfind]; rfl
    simp [step, h2]
  · intro st2 mid2 hnone
    simp [step, hnone]

/-- Witness for C4 at the one-message state: message 0 is stored unseen,
and the first `message seen` call flips it with a single broadcast. -/
theorem c4_seen_idempotent_witness :
    (findById 0 wState.store = some (msgAt 0) ∧ (msgAt 0).seen = false)
    ∧ step true 3 wState (.messageSeen "c1" 0)
        = ({ wState with store := markSeen 0 wState.store },
           [(Recipient.toAll, OutEvent.messageStatusUpdated 0)]) :=
  ⟨⟨by decide, by decide⟩,
   (c4_seen_idempotent 3 4 wState "c1" "c2" 0 (msgAt 0)
      (by decide) (by decide)).1⟩

/-- C5: disconnecting an announced connection emits exactly one
`user typing stop` for that identity (whether or not a typing start was
pending), then removes the session and re-publishes the participant list
(src/server.js lines 276-286); disconnecting a never-announced connection
emits nothing; and along any trace that never announces the connection,
every roster broadcast is the value list of a directory holding no entry
for it. -/
theorem c5_disconnect_cleanup (dbOk : Bool) (now : Nat) (st : ServerState)
    (cid : String) :
    (∀ u, dLookup cid st.activeUsers = some u →
       step dbOk now st (.disconnect cid)
         = ({ st with activeUsers := dRemove cid st.activeUsers },
            [(Recipient.toAllExcept cid, OutEvent.userTypingStop u),
             (Recipient.toAll,
              OutEvent.updateUserList (usersValues (dRemove cid st.activeUsers)))])
       ∧ ((step dbOk now st (.disconnect cid)).2.countP
            (fun e => match e.2 with
                      | OutEvent.userTypingStop _ => true
                      | _ => false)) = 1)
    ∧ (dLookup cid st.activeUsers = none →
         step dbOk now st (.disconnect cid) = (st, []))
    ∧ (∀ es : List TEvent,
         dLookup cid st.activeUsers = none →
         (∀ t ∈ es, ∀ u, t.ev ≠ InEvent.announce cid u) →
         ∀ l, (Recipient.toAll, OutEvent.updateUserList l) ∈ (run st es).2 →
           ∃ d, l = usersValues d ∧ dLookup cid d = none) := by
  refine ⟨?_, ?_, ?_⟩
  · intro u hu
    refine ⟨by simp [step, hu], ?_⟩
    simp [step, hu, List.countP, List.countP.go]
  · intro h
    simp [step, h]
  · intro es h hann l hm
    exact run_roster_avoids cid es st h hann l hm

/-- Witness for C5: disconnecting the announced connection `"c1"`. -/
theorem c5_disconnect_cleanup_witness :
    dLookup "c1" wState.activeUsers = some aliceInfo
    ∧ step true 0 wState (.disconnect "c1")
        = ({ wState with activeUsers := dRemove "c1" wState.activeUsers },
           [(Recipient.toAllExcept "c1", OutEvent.userTypingStop aliceInfo),
            (Recipient.toAll,
             OutEvent.updateUserList
               (usersValues (dRemove "c1" wState.activeUsers)))]) :=
  ⟨by decide,
   ((c5_disconnect_cleanup true 0 wState "c1").1 aliceInfo (by decide)).1⟩

/-- C6: the `clear chat` handler (src/server.js lines 260-267) — run for
any connection, with no authorization guard consulted — empties the store
and broadcasts a payload-less `chat cleared` to all connections; the
history fetch afterwards is empty, so the history push to any
subsequently connecting client is empty. -/
theorem c6_clear_chat (now now2 : Nat) (st : ServerState) (cid cid2 : String) :
    step true now st (.clearChat cid)
      = ({ st with store := [] }, [(Recipient.toAll, OutEvent.chatCleared)])
    ∧ findRecent 50 (step true now st (.clearChat cid)).1.store = []
    ∧ (step true now2 (step true now st (.clearChat cid)).1 (.connect cid2)).2
        = [(Recipient.toOne cid2, OutEvent.chatHistory [])] :=
  ⟨rfl, rfl, rfl⟩

/-- C7: a typing start or stop from an announced connection is broadcast
to all connections except the originator (`socket.broadcast.emit`,
src/server.js lines 248-258), exactly one immediate broadcast per event
and no state change — so no debouncing or timeout is applied at this
layer. -/
theorem c7_typing_self_exclusion (dbOk : Bool) (now : Nat) (st : ServerState)
    (cid : String) (u : UserInfo)
    (h : dLookup cid st.activeUsers = some u) :
    step dbOk now st (.typingStart cid)
      = (st, [(Recipient.toAllExcept cid, OutEvent.userTypingStart u)])
    ∧ step dbOk now st (.typingStop cid)
      = (st, [(Recipient.toAllExcept cid, OutEvent.userTypingStop u)]) := by
  constructor <;> simp [step, h]

/-- Witness for C7: typing events of the announced connection `"c1"`. -/
theorem c7_typing_self_exclusion_witness :
    dLookup "c1" wState.activeUsers = some aliceInfo
    ∧ step true 0 wState (.typingStart "c1")
        = (wState, [(Recipient.toAllExcept "c1",
                     OutEvent.userTypingStart aliceInfo)]) :=
  ⟨by decide,
   (c7_typing_self_exclusion true 0 wState "c1" aliceInfo (by decide)).1⟩

/-- C8: the reply snapshot round-trips by value.  A message whose draft
carries `replyTo = snap` is persisted and broadcast with exactly that
snapshot — `mkStored` copies `msg.replyTo` and reads nothing from the
store, so the snapshot is an embedded copy, never a live reference.  In
the concrete scenario, A sends "hi", B replies with the snapshot
`{user:"A", text:"hi"}`, and the chat is then cleared: the broadcast of
the reply still carries the snapshot unchanged while the final store is
empty — deleting every message (the original by A included) does not
touch it. -/
theorem c8_reply_snapshot_roundtrip (now : Nat) (st : ServerState)
    (cid : String) (d : Draft) (snap : ReplySnapshot)
    (h : d.replyTo = some snap) :
    (mkStored st.nextId now d).replyTo = some snap
    ∧ step true now st (.chatMessage cid d)
        = ({ st with store := st.store ++ [mkStored st.nextId now d],
                     nextId := st.nextId + 1 },
           [(Recipient.toAll, OutEvent.chatMessage (mkStored st.nextId now d))])
    ∧ (run initState exTrace).2
        = [(Recipient.toAll, OutEvent.chatMessage (mkStored 0 1 exDraftA)),
           (Recipient.toAll, OutEvent.chatMessage (mkStored 1 2 exDraftB)),
           (Recipient.toAll, OutEvent.chatCleared)]
    ∧ (mkStored 1 2 exDraftB).replyTo = some { user := "A", text := "hi" }
    ∧ (run initState exTrace).1.store = [] := by
  refine ⟨?_, rfl, by decide, by decide, by decide⟩
  simp [mkStored, h]

/-- Witness for C8 at the reply draft of the scenario. -/
theorem c8_reply_snapshot_roundtrip_witness :
    exDraftB.replyTo = some { user := "A", text := "hi" }
    ∧ (mkStored initState.nextId 2 exDraftB).replyTo
        = some { user := "A", text := "hi" } :=
  ⟨by decide,
   (c8_reply_snapshot_roundtrip 2 initState "cB" exDraftB
      { user := "A", text := "hi" } (by decide)).1⟩

/-- C9 (amended): when the store is unavailable during the history fetch,
the connection is not failed or torn down and simply proceeds — but no
history event of any kind is delivered: src/server.js line 219 attaches
no rejection handler (nothing is even logged), and the catch branch of
the mysql snapshot (src/unnamed/part_003 lines 159-161) logs the error
and emits nothing.  In neither variant does the client receive an empty
history. -/
theorem c9_history_failure_amended (now : Nat) (st : ServerState)
    (cid : String) (sq : SqlState) :
    step false now st (.connect cid) = (st, [])
    ∧ sqlConnect false cid sq = [] :=
  ⟨rfl, rfl⟩

/-- C9 counterexample: on a failing store the connecting client `"c1"`
receives nothing — in particular not the empty-history event the claim
promises — while the connection itself survives unchanged. -/
theorem c9_no_empty_history_counterexample :
    step false 0 wState (.connect "c1") = (wState, [])
    ∧ ¬ ((Recipient.toOne "c1", OutEvent.chatHistory [])
           ∈ (step false 0 wState (.connect "c1")).2)
    ∧ sqlConnect false "c1" sqlInit = [] :=
  ⟨rfl, by decide, rfl⟩

/-- C10 (implicit): a typing start or stop from a connection with no
entry in `activeUsers` is silently dropped by the
`if (activeUsers[socket.id])` guard (src/server.js lines 248-258): no
broadcast of any kind is emitted and the state is unchanged; conversely
any `user typing start` emission of any step names exactly the directory
entry of an announced originator, so typing indicators can only ever name
announced identities. -/
theorem c10_unannounced_typing_dropped (dbOk : Bool) (now : Nat)
    (st : ServerState) (cid : String)
    (h : dLookup cid st.activeUsers = none) :
    step dbOk now st (.typingStart cid) = (st, [])
    ∧ step dbOk now st (.typingStop cid) = (st, [])
    ∧ (∀ (e : InEvent) (r : Recipient) (u : UserInfo),
         (r, OutEvent.userTypingStart u) ∈ (step dbOk now st e).2 →
         ∃ c, e = InEvent.typingStart c
              ∧ dLookup c st.activeUsers = some u
              ∧ r = Recipient.toAllExcept c) := by
  refine ⟨by simp [step, h], by simp [step, h], ?_⟩
  intro e r u hm
  cases e with
  | connect c => by_cases hdb : dbOk <;> simp [step, hdb] at hm
  | announce c u2 => simp [step] at hm
  | chatMessage c d => by_cases hdb : dbOk <;> simp [step, hdb] at hm
  | messageSeen c mid =>
      by_cases hdb : dbOk
      · cases hf : findById mid st.store with
        | none => simp [step, hdb, hf] at hm
        | some m => by_cases hs : m.seen <;> simp [step, hdb, hf, hs] at hm
      · simp [step, hdb] at hm
  | typingStart c =>
      cases hl : dLookup c st.activeUsers with
      | none => simp [step, hl] at hm
      | some u2 =>
          simp [step, hl] at hm
          obtain ⟨hr, hu⟩ := hm
          exact ⟨c, rfl, by rw [hl, hu], hr⟩
  | typingStop c =>
      cases hl : dLookup c st.activeUsers <;> simp [step, hl] at hm
  | clearChat c => by_cases hdb : dbOk <;> simp [step, hdb] at hm
  | sendAlert c a => simp [step] at hm
  | disconnect c =>
      cases hl : dLookup c st.activeUsers <;> simp [step, hl] at hm

/-- Witness for C10: a typing start from the never-announced connection
`"ghost"` is dropped. -/
theorem c10_unannounced_typing_dropped_witness :
    dLookup "ghost" wState.activeUsers = none
    ∧ step true 0 wState (.typingStart "ghost") = (wState, []) :=
  ⟨by decide,
   (c10_unannounced_typing_dropped true 0 wState "ghost" (by decide)).1⟩
